import Mathlib

/-!
Verification of `scripts/create-icon.py`, a utility that converts a PNG
image into a multi-resolution Windows ICO file via the Pillow library.

The script is shallow-embedded as pure Lean functions.  Raster images are
modelled by the inductive `Img`, recording how each image was obtained
(decoded source, RGBA conversion, resize); the external library and
filesystem calls (`Image.open`, `.save`, `Path.stat`, `Path.exists`) are
abstracted by an environment `Env` supplying each call's outcome.  The
script's side effects (library invocations and printed report lines) are
made observable as traces of `Event`s and `OutLine`s.
-/

namespace CreateIcon

/-- Raster images as handled by the imaging library.  `src` is an image
decoded from a file, carrying its pixel `mode` (e.g. "RGBA", "RGB", "P")
and dimensions; `convertRGBA` models `img.convert('RGBA')`;
`resize` models `img.resize((w, h), LANCZOS)`, which produces an image of
exactly the requested dimensions. -/
inductive Img where
  | src (mode : String) (width height : Nat)
  | convertRGBA (i : Img)
  | resize (i : Img) (width height : Nat)
deriving DecidableEq, Repr

instance : Inhabited Img := ⟨Img.src "RGBA" 0 0⟩

/-- Pixel mode of an image: `convert('RGBA')` yields mode "RGBA", and
Pillow's `resize` preserves the mode of its input. -/
def Img.mode : Img → String
  | .src m _ _ => m
  | .convertRGBA _ => "RGBA"
  | .resize i _ _ => i.mode

/-- Dimensions of an image.  `resize` yields exactly the target box. -/
def Img.dims : Img → Nat × Nat
  | .src _ w h => (w, h)
  | .convertRGBA i => i.dims
  | .resize _ w h => (w, h)

/-- The fixed size list of `create_icon`:
`sizes = [(256, 256), (128, 128), (64, 64), (48, 48), (32, 32), (16, 16)]`. -/
def sizes : List (Nat × Nat) :=
  [(256, 256), (128, 128), (64, 64), (48, 48), (32, 32), (16, 16)]

/-- The RGBA normalization step of `create_icon`:
`if img.mode != 'RGBA': img = img.convert('RGBA')`. -/
def normalizeRGBA (img : Img) : Img :=
  if img.mode ≠ "RGBA" then Img.convertRGBA img else img

/-- The resize loop of `create_icon`: for each entry of `sizes`, in order,
resize the (RGBA-normalized) source image to that exact size and append the
result to `icon_images`. -/
def iconImages (img0 : Img) : List Img :=
  sizes.map fun s => Img.resize (normalizeRGBA img0) s.1 s.2

/-- Observable external calls made by the script: opening (decoding) the
source file, the single `.save` invocation (with primary image, appended
images, declared sizes metadata and destination path), and the output
file-size query `Path(ico_path).stat().st_size`. -/
inductive Event where
  | openFile (path : String)
  | saveICO (primary : Img) (appendImages : List Img)
      (sizesMeta : List (Nat × Nat)) (dest : String)
  | statFile (path : String)
deriving DecidableEq, Repr

/-- Lines printed by the script, one constructor per `print` call, each
carrying the dynamic data interpolated into the printed text.
`fileSize` carries the queried size in bytes (the script displays it
divided by 1024, as KB with one decimal). -/
inductive OutLine where
  | creatingBanner (src dst : String)
  | successMsg (ico : String)
  | sizesIncluded (ss : List (Nat × Nat))
  | fileSize (bytes : Nat)
  | errorCreating (cause : String)
  | pngNotFound (path : String)
  | usage
  | pillowMissing
deriving DecidableEq, Repr

/-- Outcomes of the external calls for one run: the result of
`Image.open` (a decoded image, or a raised exception message), of `.save`,
of the `stat().st_size` query, and the `Path.exists` predicate on paths
(given as component lists). -/
structure Env where
  decodeResult : Except String Img
  saveResult : Except String Unit
  statResult : Except String Nat
  sourceExists : List String → Bool

/-- The body of `create_icon`'s `try` block: open the source, normalize and
resize (via `iconImages`), call `.save` once with the first variant as
primary and the rest as `append_images`, print the success report, query
the output file size and print it, and return the queried size.  Returns
the events and output lines produced so far together with either the
result or the first raised exception. -/
def createIconBody (env : Env) (pngPath icoPath : String) :
    List Event × List OutLine × Except String Nat :=
  match env.decodeResult with
  | Except.error e => ([Event.openFile pngPath], [], Except.error e)
  | Except.ok img0 =>
    let iconImgs := iconImages img0
    let evs := [Event.openFile pngPath,
                Event.saveICO iconImgs.headI iconImgs.tail sizes icoPath]
    match env.saveResult with
    | Except.error e => (evs, [], Except.error e)
    | Except.ok _ =>
      let outs := [OutLine.successMsg icoPath, OutLine.sizesIncluded sizes]
      match env.statResult with
      | Except.error e => (evs ++ [Event.statFile icoPath], outs, Except.error e)
      | Except.ok n =>
        (evs ++ [Event.statFile icoPath], outs ++ [OutLine.fileSize n],
         Except.ok n)

/-- `create_icon(png_path, ico_path)`: runs the body inside the single
`try/except Exception` boundary.  On success it returns `True`; any
exception raised by the body is caught, printed as
`Error creating icon: {e}`, and turned into `False`. -/
def createIcon (env : Env) (pngPath icoPath : String) :
    Bool × List Event × List OutLine :=
  match createIconBody env pngPath icoPath with
  | (evs, outs, Except.ok _) => (true, evs, outs)
  | (evs, outs, Except.error e) => (false, evs, outs ++ [OutLine.errorCreating e])

/-- Parse a path string into its components, as `Path(s)` does. -/
def pathOfString (s : String) : List String := s.splitOn "/"

/-- Render a component-list path back to a string, as `str(path)` does. -/
def pathToString (p : List String) : String := String.intercalate "/" p

/-- `project_root = Path(__file__).parent.parent`: two `parent` steps up
from the script file's path. -/
def projectRoot (scriptPath : List String) : List String :=
  scriptPath.dropLast.dropLast

/-- Default source path: `project_root / "assets" / "app-logo-color.png"`. -/
def defaultPng (scriptPath : List String) : List String :=
  projectRoot scriptPath ++ ["assets", "app-logo-color.png"]

/-- Default destination path: `project_root / "assets" / "app-icon.ico"`. -/
def defaultIco (scriptPath : List String) : List String :=
  projectRoot scriptPath ++ ["assets", "app-icon.ico"]

/-- Source path selected by `main`: `sys.argv[1]` when
`len(sys.argv) > 1`, else the default.  `argv` is the full `sys.argv`,
program name included. -/
def selectedPng (scriptPath argv : List String) : List String :=
  if argv.length > 1 then pathOfString (argv.getD 1 "") else defaultPng scriptPath

/-- Destination path selected by `main`: `sys.argv[2]` when
`len(sys.argv) > 2`, else the default. -/
def selectedIco (scriptPath argv : List String) : List String :=
  if argv.length > 2 then pathOfString (argv.getD 2 "") else defaultIco scriptPath

/-- `main()`: resolve paths, check `png_path.exists()` (exiting 1 with a
not-found message and usage hint if absent, before any decoding), print the
banner, run `create_icon`, and exit 0 if it returned `True`, else 1.
Returns the exit code with the event and output traces. -/
def mainRun (env : Env) (scriptPath argv : List String) :
    Nat × List Event × List OutLine :=
  let png := selectedPng scriptPath argv
  let ico := selectedIco scriptPath argv
  if env.sourceExists png = false then
    (1, [], [OutLine.pngNotFound (pathToString png), OutLine.usage])
  else
    let r := createIcon env (pathToString png) (pathToString ico)
    (if r.1 then 0 else 1, r.2.1,
     OutLine.creatingBanner (pathToString png) (pathToString ico) :: r.2.2)

/-- The whole process: the `try: from PIL import Image / except ImportError`
guard exits 1 with a remediation hint when Pillow is unavailable; otherwise
`main()` runs. -/
def programRun (pillowAvailable : Bool) (env : Env)
    (scriptPath argv : List String) : Nat × List Event × List OutLine :=
  if pillowAvailable then mainRun env scriptPath argv
  else (1, [], [OutLine.pillowMissing])

/-- Recognizer for the encoder invocation among the events of a run. -/
def isSaveEvent : Event → Bool
  | .saveICO _ _ _ _ => true
  | _ => false

/-- Environment of a run in which every external call succeeds, used to
instantiate the hypothesised theorems at a concrete input. -/
def okEnv : Env :=
  { decodeResult := Except.ok (Img.src "RGB" 512 512)
    saveResult := Except.ok ()
    statResult := Except.ok 70000
    sourceExists := fun _ => true }

/-- Environment in which decoding the source raises (a corrupt file). -/
def decodeFailEnv : Env :=
  { decodeResult := Except.error "oops"
    saveResult := Except.ok ()
    statResult := Except.ok 0
    sourceExists := fun _ => true }

/-- Environment in which decoding succeeds but the `.save` call raises. -/
def encodeFailEnv : Env :=
  { decodeResult := Except.ok (Img.src "RGBA" 512 512)
    saveResult := Except.error "oops"
    statResult := Except.ok 0
    sourceExists := fun _ => true }

/-- C1: for every decoded raster input, RGBA or not, `create_icon` builds
exactly 6 resized variants; their dimensions are exactly 256×256, 128×128,
64×64, 48×48, 32×32, 16×16 in that largest-first order; the normalized
source they are resized from has mode RGBA; and every variant is a direct
resize of that single normalized source, never of another variant. -/
theorem c1_six_exact_variants (img0 : Img) :
    (iconImages img0).length = 6 ∧
    (iconImages img0).map Img.dims = sizes ∧
    (normalizeRGBA img0).mode = "RGBA" ∧
    ∀ v ∈ iconImages img0, ∃ w h, v = Img.resize (normalizeRGBA img0) w h := by
  refine ⟨by simp [iconImages, sizes], by simp [iconImages, sizes, Img.dims], ?_, ?_⟩
  · unfold normalizeRGBA
    split
    · rfl
    · next h => simpa using h
  · intro v hv
    simp only [iconImages, sizes, List.map, List.mem_cons, List.not_mem_nil,
      or_false] at hv
    rcases hv with h | h | h | h | h | h <;> exact ⟨_, _, h⟩

/-- C2: on a successful run of `create_icon` the encoder is invoked
exactly once — the event trace contains a single `saveICO` event — whose
primary image is the first (256×256) variant, whose appended images are the
remaining 5 variants in order, and whose declared sizes metadata is the
fixed constant `sizes` list; as that constant does not depend on the input,
the dimension list and count are identical across runs. -/
theorem c2_encoder_once (env : Env) (png ico : String) (img0 : Img) (n : Nat)
    (hd : env.decodeResult = Except.ok img0)
    (hs : env.saveResult = Except.ok ())
    (ht : env.statResult = Except.ok n) :
    (createIcon env png ico).1 = true ∧
    ((createIcon env png ico).2.1.filter isSaveEvent
      = [Event.saveICO (iconImages img0).headI (iconImages img0).tail
          sizes ico]) ∧
    (iconImages img0).headI.dims = (256, 256) ∧
    (iconImages img0).tail.map Img.dims = sizes.tail := by
  refine ⟨?_, ?_, ?_, ?_⟩ <;>
    simp [createIcon, createIconBody, hd, hs, ht, isSaveEvent, iconImages,
      sizes, Img.dims]

/-- Witness for `c2_encoder_once` at the all-success environment. -/
theorem c2_encoder_once_witness :
    (createIcon okEnv "in.png" "out.ico").1 = true ∧
    ((createIcon okEnv "in.png" "out.ico").2.1.filter isSaveEvent
      = [Event.saveICO (iconImages (Img.src "RGB" 512 512)).headI
          (iconImages (Img.src "RGB" 512 512)).tail sizes "out.ico"]) ∧
    (iconImages (Img.src "RGB" 512 512)).headI.dims = (256, 256) ∧
    (iconImages (Img.src "RGB" 512 512)).tail.map Img.dims = sizes.tail :=
  c2_encoder_once okEnv "in.png" "out.ico" (Img.src "RGB" 512 512) 70000
    rfl rfl rfl

/-- C3: when the selected source path does not exist, `main` exits with
code 1, prints the dedicated not-found message (a constructor distinct from
the generic conversion-error message) plus a usage hint, and performs no
external call at all — in particular no decode is attempted and no output
file is written. -/
theorem c3_source_not_found (env : Env) (scriptPath argv : List String)
    (h : env.sourceExists (selectedPng scriptPath argv) = false) :
    mainRun env scriptPath argv
      = (1, [],
         [OutLine.pngNotFound (pathToString (selectedPng scriptPath argv)),
          OutLine.usage]) ∧
    ∀ cause, OutLine.pngNotFound (pathToString (selectedPng scriptPath argv))
      ≠ OutLine.errorCreating cause := by
  refine ⟨?_, fun cause => by simp⟩
  simp [mainRun, h]

/-- Witness for `c3_source_not_found` at an environment whose source path
does not exist. -/
theorem c3_source_not_found_witness :
    mainRun
        { decodeResult := Except.error "unreached"
          saveResult := Except.ok ()
          statResult := Except.ok 0
          sourceExists := fun _ => false }
        ["r", "scripts", "create-icon.py"] ["prog"]
      = (1, [],
         [OutLine.pngNotFound
            (pathToString (selectedPng ["r", "scripts", "create-icon.py"]
              ["prog"])),
          OutLine.usage]) ∧
    ∀ cause, OutLine.pngNotFound
        (pathToString (selectedPng ["r", "scripts", "create-icon.py"]
          ["prog"]))
      ≠ OutLine.errorCreating cause :=
  c3_source_not_found
    { decodeResult := Except.error "unreached"
      saveResult := Except.ok ()
      statResult := Except.ok 0
      sourceExists := fun _ => false }
    ["r", "scripts", "create-icon.py"] ["prog"] rfl

/-- C4 counterexample: the code has no failure kind distinguishing decode
failures from encode failures.  A run whose decode raises "oops" and a run
whose `.save` raises "oops" yield the same user-facing outcome — return
value `False` and the single generic line `Error creating icon: oops` — so
a corrupt source does not produce a `DecodeError` kind distinct from
`EncodeError`. -/
theorem c4_no_distinct_kinds :
    ((createIcon decodeFailEnv "a.png" "b.ico").1,
     (createIcon decodeFailEnv "a.png" "b.ico").2.2)
      = ((createIcon encodeFailEnv "a.png" "b.ico").1,
         (createIcon encodeFailEnv "a.png" "b.ico").2.2) ∧
    (createIcon decodeFailEnv "a.png" "b.ico").1 = false ∧
    (createIcon decodeFailEnv "a.png" "b.ico").2.2
      = [OutLine.errorCreating "oops"] := by
  refine ⟨?_, ?_, ?_⟩ <;>
    simp [createIcon, createIconBody, decodeFailEnv, encodeFailEnv]

/-- C4 amended: for every corrupt or undecodable source file, `create_icon`
returns the generic failure — `False` together with the single message line
`Error creating icon: {e}` carrying the underlying cause — and makes no
`.save` call, so no output file is written; this failure shape is the same
one produced by encode failures, not a distinct kind. -/
theorem c4_decode_failure_generic (env : Env) (png ico : String) (e : String)
    (h : env.decodeResult = Except.error e) :
    createIcon env png ico
      = (false, [Event.openFile png], [OutLine.errorCreating e]) := by
  simp [createIcon, createIconBody, h]

/-- Witness for `c4_decode_failure_generic` at the decode-failing
environment. -/
theorem c4_decode_failure_generic_witness :
    createIcon decodeFailEnv "a.png" "b.ico"
      = (false, [Event.openFile "a.png"], [OutLine.errorCreating "oops"]) :=
  c4_decode_failure_generic decodeFailEnv "a.png" "b.ico" "oops" rfl

/-- C5: on every successful conversion, `create_icon` queries the written
output file's size in bytes (the `statFile` event on the destination path)
and its result carries both the success flag `True` and that byte size in
the printed report. -/
theorem c5_success_reports_size (env : Env) (png ico : String) (img0 : Img)
    (n : Nat)
    (hd : env.decodeResult = Except.ok img0)
    (hs : env.saveResult = Except.ok ())
    (ht : env.statResult = Except.ok n) :
    (createIcon env png ico).1 = true ∧
    Event.statFile ico ∈ (createIcon env png ico).2.1 ∧
    OutLine.fileSize n ∈ (createIcon env png ico).2.2 := by
  refine ⟨?_, ?_, ?_⟩ <;> simp [createIcon, createIconBody, hd, hs, ht]

/-- Witness for `c5_success_reports_size` at the all-success
environment. -/
theorem c5_success_reports_size_witness :
    (createIcon okEnv "in.png" "out.ico").1 = true ∧
    Event.statFile "out.ico" ∈ (createIcon okEnv "in.png" "out.ico").2.1 ∧
    OutLine.fileSize 70000 ∈ (createIcon okEnv "in.png" "out.ico").2.2 :=
  c5_success_reports_size okEnv "in.png" "out.ico" (Img.src "RGB" 512 512)
    70000 rfl rfl rfl

/-- C6: `create_icon` is total at its boundary.  Every run either succeeds
with return value `True`, or the exception raised inside the pipeline body
is caught by the single `except Exception` handler and converted into the
boolean result `False` plus the user-facing message line carrying its
cause; no exception escapes `create_icon`. -/
theorem c6_boundary_total (env : Env) (png ico : String) :
    ((createIconBody env png ico).2.2.isOk = true ∧
      (createIcon env png ico).1 = true) ∨
    (∃ e, (createIconBody env png ico).2.2 = Except.error e ∧
      (createIcon env png ico).1 = false ∧
      OutLine.errorCreating e ∈ (createIcon env png ico).2.2) := by
  rcases hb : createIconBody env png ico with ⟨evs, outs, r⟩
  cases r with
  | ok n => exact Or.inl ⟨by simp [hb]; rfl, by simp [createIcon, hb]⟩
  | error e => exact Or.inr ⟨e, by simp [hb], by simp [createIcon, hb],
      by simp [createIcon, hb]⟩

/-- C7: the process exit code is always 0 or 1, and it is 0 exactly when
Pillow is available, the source file exists, and `create_icon` succeeds —
so every failure (missing source, decode error, encode error) and a missing
library at startup exit with code 1. -/
theorem c7_exit_codes (p : Bool) (env : Env) (scriptPath argv : List String) :
    ((programRun p env scriptPath argv).1 = 0 ∨
      (programRun p env scriptPath argv).1 = 1) ∧
    ((programRun p env scriptPath argv).1 = 0 ↔
      p = true ∧
      env.sourceExists (selectedPng scriptPath argv) = true ∧
      (createIcon env (pathToString (selectedPng scriptPath argv))
        (pathToString (selectedIco scriptPath argv))).1 = true) := by
  cases p with
  | false => simp [programRun]
  | true =>
    cases h : env.sourceExists (selectedPng scriptPath argv) with
    | false => simp [programRun, mainRun, h]
    | true =>
      cases hr : (createIcon env (pathToString (selectedPng scriptPath argv))
          (pathToString (selectedIco scriptPath argv))).1 with
      | false => simp [programRun, mainRun, h, hr]
      | true => simp [programRun, mainRun, h, hr]

/-- C8: positional-argument handling of `main` — with no positional
arguments both paths are the defaults under the project root; with one,
only the source is overridden; with two, both are overridden. -/
theorem c8_positional_args (scriptPath argv : List String) :
    (argv.length ≤ 1 →
      selectedPng scriptPath argv = defaultPng scriptPath ∧
      selectedIco scriptPath argv = defaultIco scriptPath) ∧
    (argv.length = 2 →
      selectedPng scriptPath argv = pathOfString (argv.getD 1 "") ∧
      selectedIco scriptPath argv = defaultIco scriptPath) ∧
    (argv.length = 3 →
      selectedPng scriptPath argv = pathOfString (argv.getD 1 "") ∧
      selectedIco scriptPath argv = pathOfString (argv.getD 2 "")) := by
  refine ⟨fun h => ?_, fun h => ?_, fun h => ?_⟩
  · have h1 : ¬ argv.length > 1 := by omega
    have h2 : ¬ argv.length > 2 := by omega
    simp [selectedPng, selectedIco, h1, h2]
  · have h1 : argv.length > 1 := by omega
    have h2 : ¬ argv.length > 2 := by omega
    simp [selectedPng, selectedIco, h1, h2]
  · have h1 : argv.length > 1 := by omega
    have h2 : argv.length > 2 := by omega
    simp [selectedPng, selectedIco, h1, h2]

/-- Witness for `c8_positional_args` at a one-positional-argument
invocation. -/
theorem c8_positional_args_witness :
    selectedPng ["r", "scripts", "create-icon.py"] ["prog", "in.png"]
      = pathOfString (["prog", "in.png"].getD 1 "") ∧
    selectedIco ["r", "scripts", "create-icon.py"] ["prog", "in.png"]
      = defaultIco ["r", "scripts", "create-icon.py"] :=
  (c8_positional_args ["r", "scripts", "create-icon.py"]
    ["prog", "in.png"]).2.1 rfl

/-- C9: the default paths are resolved relative to a project root obtained
by going two parents up from the script file's path: for a script located
at `root/dir/file`, the project root is `root` and the defaults are
`root/assets/app-logo-color.png` and `root/assets/app-icon.ico`. -/
theorem c9_project_root (r : List String) (d f : String) :
    projectRoot (r ++ [d, f]) = r ∧
    defaultPng (r ++ [d, f]) = r ++ ["assets", "app-logo-color.png"] ∧
    defaultIco (r ++ [d, f]) = r ++ ["assets", "app-icon.ico"] := by
  have hroot : projectRoot (r ++ [d, f]) = r := by
    unfold projectRoot
    have hsplit : r ++ [d, f] = (r ++ [d]) ++ [f] := by simp
    rw [hsplit, List.dropLast_concat, List.dropLast_concat]
  exact ⟨hroot, by simp [defaultPng, hroot], by simp [defaultIco, hroot]⟩

/-- C10: arguments beyond the second positional one are silently ignored —
a run with more than two positional arguments produces exactly the exit
code, events and output of the run restricted to the first two positional
arguments, with no extra error or warning line. -/
theorem c10_extra_args_ignored (env : Env) (scriptPath argv : List String)
    (h : 3 ≤ argv.length) :
    mainRun env scriptPath argv = mainRun env scriptPath (argv.take 3) := by
  rcases argv with _ | ⟨a, _ | ⟨b, _ | ⟨c, t⟩⟩⟩
  · simp at h
  · simp at h
  · simp at h
  · simp [mainRun, selectedPng, selectedIco, List.getD]

/-- Witness for `c10_extra_args_ignored` at a four-element `sys.argv`. -/
theorem c10_extra_args_ignored_witness :
    mainRun okEnv ["r", "scripts", "create-icon.py"]
        ["prog", "in.png", "out.ico", "extra"]
      = mainRun okEnv ["r", "scripts", "create-icon.py"]
          (["prog", "in.png", "out.ico", "extra"].take 3) :=
  c10_extra_args_ignored okEnv ["r", "scripts", "create-icon.py"]
    ["prog", "in.png", "out.ico", "extra"] (by decide)

end CreateIcon
